import Mathlib

/-!
Verification development for the CodeCompare repository
(src/code_compare/comparer.py and src/code_compare/utils.py).

The measurement engine is embedded shallowly:

* A Python code object passed to exec is modelled by Code: the free
  (module-level) names it references, the random.seed(k) calls it
  contains, and whether it raises after name resolution succeeds.
  exec(code, globals, locals) is modelled by execCode over the list of
  names bound in the namespaces handed to exec; a reference to a name
  absent from those namespaces and from the builtin namespace raises a
  NameError, mirroring the interpreter.
* Timing values are rationals; time.perf_counter readings are supplied by
  an explicit clock oracle giving the (start, end) timestamps of each
  repetition.
* math.sqrt (and hence statistics.stdev, which is the square root of the
  sample variance) is threaded as an abstract function sqrtQ on rationals:
  no claim under verification depends on the numeric value of a square
  root, only on where the code applies it.
* Exceptions are Except String; a value Except.error e escaping a
  function models an uncaught Python exception propagating out of it.
* The process-wide garbage-collector flag is threaded explicitly as a
  Bool (true = automatic collection enabled).
-/

deriving instance DecidableEq for Except

namespace CodeCompare

/-- Behavior of a code object once every referenced name resolves:
either it completes normally or raises with the given message. -/
inductive ExecBehavior where
  | ok
  | raises (msg : String)
deriving DecidableEq

/-- Model of a Python source string handed to exec: the free names it
reads (in evaluation order), the seeds of the random.seed(k) statements
it contains (in order), and its behavior after name resolution. -/
structure Code where
  refs : List String
  seeds : List Int
  behavior : ExecBehavior
deriving DecidableEq

/-- Names resolvable from the builtin namespace (the modules random and
time are not builtins; they only exist where an import bound them). -/
def pyBuiltins : List String := ["range", "len", "print", "abs", "min", "max", "sum"]

/-- Message of the NameError raised for an unresolvable name. -/
def nameErrorMsg (n : String) : String :=
  "NameError: name " ++ n ++ " is not defined"

/-- First referenced name that resolves neither in the exec namespaces
nor in the builtins. -/
def firstUnresolved (c : Code) (env : List String) : Option String :=
  c.refs.find? (fun n => !(env.contains n || pyBuiltins.contains n))

/-- exec(c, namespaces): raises NameError at the first unresolvable
name, otherwise behaves as the code behaves. -/
def execCode (c : Code) (env : List String) : Except String Unit :=
  match firstUnresolved c env with
  | some n => Except.error (nameErrorMsg n)
  | none =>
    match c.behavior with
    | ExecBehavior.ok => Except.ok ()
    | ExecBehavior.raises m => Except.error m

/-- One exec call: the code object and the name lists of the globals and
locals dictionaries passed to it. -/
structure ExecEvt where
  code : Code
  genv : List String
  lenv : List String
deriving DecidableEq

/-- DEFAULT_SETUP_CODE (comparer.py lines 26-29): imports time and
random; every name it reads is bound by its own imports. -/
def DEFAULT_SETUP_CODE : Code := { refs := [], seeds := [], behavior := ExecBehavior.ok }

/-- DEFAULT_CODE_1 (comparer.py lines 30-33): reads random then time,
neither of which it binds itself. -/
def DEFAULT_CODE_1 : Code := { refs := ["random", "time"], seeds := [], behavior := ExecBehavior.ok }

/-- DEFAULT_CODE_2 (comparer.py lines 34-39): reads random then the
builtin range. -/
def DEFAULT_CODE_2 : Code := { refs := ["random", "range"], seeds := [], behavior := ExecBehavior.ok }

/-- self.fixed_seed = 42 (comparer.py line 51). -/
def fixed_seed : Int := 42

/-- self.setup_code (comparer.py lines 52-55): the line
random.seed(42) prepended to the default setup; all names self-bound. -/
def self_setup_code : Code := { refs := [], seeds := [fixed_seed], behavior := ExecBehavior.ok }

/-- Appending a random.seed(k) line to a setup string
(comparer.py line 283 appends random.seed(fixed_seed + rep)). -/
def appendSeed (c : Code) (k : Int) : Code :=
  { c with seeds := c.seeds ++ [k] }

/-- One warmup iteration (comparer.py lines 136-139):
exec(setup_code, {}, {}) then exec(code, {}, {}), both with fresh empty
namespaces; the exec calls attempted are recorded. -/
def warmupOnce (code setup_code : Code) : Except String Unit × List ExecEvt :=
  match execCode setup_code [] with
  | Except.error e => (Except.error e, [⟨setup_code, [], []⟩])
  | Except.ok _ =>
    (execCode code [], [⟨setup_code, [], []⟩, ⟨code, [], []⟩])

/-- The warmup loop, comparer.py lines 127-139 (method _warmup): runs
the setup+snippet pair the given number of times; an exception aborts
the loop and propagates. -/
def warmup (code setup_code : Code) : Nat → Except String Unit × List ExecEvt
  | 0 => (Except.ok (), [])
  | runs + 1 =>
    match warmupOnce code setup_code with
    | (Except.error e, evts) => (Except.error e, evts)
    | (Except.ok _, evts) =>
      let r := warmup code setup_code runs
      (r.1, evts ++ r.2)

/-- The inner measured loop, comparer.py lines 287-288:
for each of number iterations, exec(code_to_time, {}, {}); a raise
aborts at the first failing execution. -/
def innerRuns (c : Code) : Nat → Except String Unit × List ExecEvt
  | 0 => (Except.ok (), [])
  | n + 1 =>
    match execCode c [] with
    | Except.error e => (Except.error e, [⟨c, [], []⟩])
    | Except.ok _ =>
      let r := innerRuns c n
      (r.1, ⟨c, [], []⟩ :: r.2)

/-- One repetition of the measured loop, comparer.py lines 283-291:
builds local_setup (the setup string with random.seed(base + rep)
appended - it is assigned and never executed), reads the start
timestamp, runs the snippet number times, reads the end timestamp, and
forms elapsed = (end - start) / number when number > 0 else 0.
Returns (elapsed or the propagating exception, the constructed
local_setup, the exec calls performed). -/
def timeRep (code_to_time setup_code : Code) (base : Int) (number : Nat)
    (clock : Nat → ℚ × ℚ) (rep : Nat) : Except String ℚ × Code × List ExecEvt :=
  let local_setup := appendSeed setup_code (base + (rep : Int))
  let start := (clock rep).1
  let r := innerRuns code_to_time number
  match r.1 with
  | Except.error e => (Except.error e, local_setup, r.2)
  | Except.ok _ =>
    let endT := (clock rep).2
    let elapsed := if 0 < number then (endT - start) / (number : ℚ) else 0
    (Except.ok elapsed, local_setup, r.2)

/-- Accumulated outcome of the repetition loop: the times list (or the
exception that aborted it), the local_setup strings constructed, and
the exec calls performed. -/
structure LoopAcc where
  res : Except String (List ℚ)
  constructed : List Code
  events : List ExecEvt
deriving DecidableEq

/-- The repetition loop of comparer.py lines 282-293, starting at
repetition index i with k repetitions remaining. -/
def loopFrom (code_to_time setup_code : Code) (base : Int) (number : Nat)
    (clock : Nat → ℚ × ℚ) : Nat → Nat → LoopAcc
  | _, 0 => ⟨Except.ok [], [], []⟩
  | i, k + 1 =>
    match timeRep code_to_time setup_code base number clock i with
    | (Except.error e, cons, evts) => ⟨Except.error e, [cons], evts⟩
    | (Except.ok t, cons, evts) =>
      let rest := loopFrom code_to_time setup_code base number clock (i + 1) k
      ⟨rest.res.map (fun ts => t :: ts), cons :: rest.constructed, evts ++ rest.events⟩

/-- The gc_disabled context manager, utils.py lines 18-26:
remember gc.isenabled(), call gc.disable(), run the body (which receives
and may update the gc flag), and in the finally clause call gc.enable()
exactly when the flag was initially enabled. Works uniformly whether the
body returns or raises. -/
def gc_disabled_run {E A : Type} (g0 : Bool) (body : Bool → Except E A × Bool) :
    Except E A × Bool :=
  let gc_enabled := g0
  let r := body false
  (r.1, if gc_enabled then true else r.2)

/-- statistics.mean error message for an empty series. -/
def meanErrMsg : String := "StatisticsError: mean requires at least one data point"

/-- Arithmetic mean (guarded call sites ensure nonempty data). -/
def pyMean (data : List ℚ) : ℚ := data.sum / (data.length : ℚ)

/-- statistics.mean: raises StatisticsError on an empty series. -/
def meanE (data : List ℚ) : Except String ℚ :=
  if data.isEmpty then Except.error meanErrMsg else Except.ok (pyMean data)

/-- Sample variance with Bessel correction (the quantity statistics.stdev
takes the square root of). -/
def pyVariance (data : List ℚ) : ℚ :=
  let m := pyMean data
  ((data.map (fun x => (x - m) ^ 2)).sum) / ((data.length : ℚ) - 1)

/-- statistics.stdev, with the square root abstract. -/
def pyStdev (sqrtQ : ℚ → ℚ) (data : List ℚ) : ℚ := sqrtQ (pyVariance data)

/-- Full outcome of one timing run (method _time_single_snippet):
value is the returned pair - Except.error for an exception escaping the
method (a warmup fault, since the warmup call sits before the try
statement), Except.ok none for the except-clause return (None, None),
Except.ok (some (mean, stdev)) for success. measurements is the
self.measurements_k list after the call, gcSeen the gc flag the
repetition loop observed (none if the loop was never entered), gcFinal
the process gc flag after the call, constructed the local_setup strings
built at line 283, and the two event lists record every exec call. -/
structure TimerReturn where
  value : Except String (Option (ℚ × ℚ))
  measurements : List ℚ
  gcSeen : Option Bool
  gcFinal : Bool
  constructed : List Code
  warmupEvents : List ExecEvt
  loopEvents : List ExecEvt
deriving DecidableEq

/-- Method _time_single_snippet, comparer.py lines 252-307.
g0 is the gc flag on entry, prevMeasurements the prior value of the
self.measurements_k attribute the method assigns, clock the
perf_counter oracle. -/
def _time_single_snippet (sqrtQ : ℚ → ℚ) (code_to_time setup_code : Code)
    (repeatN number warmup_runs : Nat) (base : Int) (g0 : Bool)
    (prevMeasurements : List ℚ) (clock : Nat → ℚ × ℚ) : TimerReturn :=
  let w := warmup code_to_time setup_code warmup_runs
  match w.1 with
  | Except.error e =>
    { value := Except.error e, measurements := prevMeasurements,
      gcSeen := none, gcFinal := g0, constructed := [],
      warmupEvents := w.2, loopEvents := [] }
  | Except.ok _ =>
    let body : Bool → Except (String × LoopAcc × Bool) (List ℚ × LoopAcc × Bool) × Bool :=
      fun g =>
        let acc := loopFrom code_to_time setup_code base number clock 0 repeatN
        match acc.res with
        | Except.error e => (Except.error (e, acc, g), g)
        | Except.ok ts => (Except.ok (ts, acc, g), g)
    match gc_disabled_run g0 body with
    | (Except.error (_, acc, gSeen), gf) =>
      { value := Except.ok none, measurements := prevMeasurements,
        gcSeen := some gSeen, gcFinal := gf, constructed := acc.constructed,
        warmupEvents := w.2, loopEvents := acc.events }
    | (Except.ok (ts, acc, gSeen), gf) =>
      match meanE ts with
      | Except.error _ =>
        { value := Except.ok none, measurements := ts,
          gcSeen := some gSeen, gcFinal := gf, constructed := acc.constructed,
          warmupEvents := w.2, loopEvents := acc.events }
      | Except.ok m =>
        let sd := if 1 < ts.length then pyStdev sqrtQ ts else 0
        { value := Except.ok (some (m, sd)), measurements := ts,
          gcSeen := some gSeen, gcFinal := gf, constructed := acc.constructed,
          warmupEvents := w.2, loopEvents := acc.events }

/-- Python sorted() on a list of rationals: the unique ascending
rearrangement (insertion sort produces the same value list timsort
does, since only the values matter). -/
def pySorted (data : List ℚ) : List ℚ := List.insertionSort (· ≤ ·) data

/-- Indexing with default 0 (all call sites are in bounds). -/
def nth (s : List ℚ) (k : Nat) : ℚ := s.getD k 0

/-- statistics.median: middle of the sorted data, or the average of the
two middles for even length (guarded call sites ensure nonempty data). -/
def pyMedian (data : List ℚ) : ℚ :=
  let s := pySorted data
  let n := data.length
  if n % 2 = 1 then nth s (n / 2)
  else (nth s (n / 2 - 1) + nth s (n / 2)) / 2

/-- Clamp of the interpolation index j to 1 .. ld-1 in
statistics.quantiles (exclusive method). -/
def clampJ (ld j0 : Nat) : Nat :=
  if j0 < 1 then 1 else if ld - 1 < j0 then ld - 1 else j0

/-- Entry i (for i in 1..99) of statistics.quantiles(data, n=100) with
the default exclusive method, over the sorted data s of length ld:
j, delta = divmod(i * (ld+1), 100), j clamped to 1..ld-1, then
linear interpolation between the adjacent order statistics. -/
def quantileAt (s : List ℚ) (ld i : Nat) : ℚ :=
  let m := ld + 1
  let j0 := i * m / 100
  let delta := i * m % 100
  let j := clampJ ld j0
  (nth s (j - 1) * (100 - (delta : ℚ)) + nth s j * (delta : ℚ)) / 100

/-- statistics.quantiles(data, n=100): the 99 cut points
(guarded call sites ensure at least 2 data points). -/
def quantiles100 (data : List ℚ) : List ℚ :=
  (List.range 99).map (fun k => quantileAt (pySorted data) data.length (k + 1))

/-- Python min(data) (guarded call sites ensure nonempty data). -/
def pyMin (data : List ℚ) : ℚ :=
  match data with
  | [] => 0
  | x :: xs => xs.foldl min x

/-- Python max(data) (guarded call sites ensure nonempty data). -/
def pyMax (data : List ℚ) : ℚ :=
  match data with
  | [] => 0
  | x :: xs => xs.foldl max x

/-- Python truthiness selection v if v else None on a float v:
0.0 is falsy, every other value is kept. -/
def truthyOpt (v : ℚ) : Option ℚ := if v = 0 then none else some v

/-- The DescriptiveStats record produced by _detailed_stats. -/
structure DescStats where
  mean : ℚ
  stdev : ℚ
  median : ℚ
  percentile_5 : Option ℚ
  percentile_95 : Option ℚ
  min : ℚ
  max : ℚ
  count : Nat
deriving DecidableEq

/-- Method _detailed_stats, comparer.py lines 141-161: percentiles are
the 100-quantile split when the series has at least 20 samples and the
list [None]*99 (modelled none) otherwise; statistics.mean raises on an
empty series and that exception propagates; stdev falls back to 0 below
2 samples; the percentile fields go through the truthiness test
percentiles[k] if percentiles[k] else None. -/
def _detailed_stats (sqrtQ : ℚ → ℚ) (data : List ℚ) : Except String DescStats :=
  let percentiles : Option (List ℚ) :=
    if 20 ≤ data.length then some (quantiles100 data) else none
  match meanE data with
  | Except.error e => Except.error e
  | Except.ok m =>
    Except.ok {
      mean := m
      stdev := if 1 < data.length then pyStdev sqrtQ data else 0
      median := pyMedian data
      percentile_5 :=
        match percentiles with
        | some ps => truthyOpt (nth ps 4)
        | none => none
      percentile_95 :=
        match percentiles with
        | some ps => truthyOpt (nth ps 94)
        | none => none
      min := pyMin data
      max := pyMax data
      count := data.length }

/-- The t lookup of comparer.py lines 206-208:
1.96 if n > 30 else {2: 12.71, ..., 10: 2.26}.get(n, 2.0). -/
def t_table (n : Nat) : ℚ :=
  if 30 < n then 1.96
  else if n = 2 then 12.71 else if n = 3 then 4.30 else if n = 4 then 3.18
  else if n = 5 then 2.78 else if n = 6 then 2.57 else if n = 7 then 2.45
  else if n = 8 then 2.36 else if n = 9 then 2.31 else if n = 10 then 2.26
  else 2.0

/-- Method _confidence_interval, comparer.py lines 190-210: (0, 0) for
fewer than 2 samples (the test not data or len(data) < 2 collapses to
the length test), otherwise mean plus/minus t * stdev / sqrt(n). -/
def _confidence_interval (sqrtQ : ℚ → ℚ) (data : List ℚ) : ℚ × ℚ :=
  if data.length < 2 then (0, 0)
  else
    let mean := pyMean data
    let stdev := pyStdev sqrtQ data
    let n := data.length
    let t := t_table n
    let margin := t * stdev / sqrtQ (n : ℚ)
    (mean - margin, mean + margin)

/-- Modelled from the spec (section 4.2): the two-tailed 95 percent
critical value as the spec words it - the exact Student-t table for n in
[2, 10], the constant 2.0 for any other n up to 30, and the normal
approximation 1.96 beyond 30. Used only to compare against the source
lookup t_table. -/
def t_spec (n : Nat) : ℚ :=
  if 2 ≤ n ∧ n ≤ 10 then
    if n = 2 then 12.71 else if n = 3 then 4.30 else if n = 4 then 3.18
    else if n = 5 then 2.78 else if n = 6 then 2.57 else if n = 7 then 2.45
    else if n = 8 then 2.36 else if n = 9 then 2.31 else 2.26
  else if n ≤ 30 then 2.0
  else 1.96

/-- Value of the ratio field: a finite rational or float(inf). -/
inductive RatioQ where
  | fin (q : ℚ)
  | inf
deriving DecidableEq

/-- The relative-performance verdict: snippet labels (1 or 2), the
speed ratio and the percentage. -/
structure Verdict where
  faster : Nat
  slower : Nat
  ratioQ : RatioQ
  percent : ℚ
deriving DecidableEq

/-- The ranking of comparer.py lines 353-362: the branch on
stats1.mean < stats2.mean, with ratio guarded by a positivity test on
the faster mean (float(inf) otherwise) and percent guarded by a
positivity test on the slower mean (0 otherwise). -/
def rankVerdict (mean1 mean2 : ℚ) : Verdict :=
  if mean1 < mean2 then
    { faster := 1, slower := 2
      ratioQ := if 0 < mean1 then RatioQ.fin (mean2 / mean1) else RatioQ.inf
      percent := if 0 < mean2 then (1 - mean1 / mean2) * 100 else 0 }
  else
    { faster := 2, slower := 1
      ratioQ := if 0 < mean2 then RatioQ.fin (mean1 / mean2) else RatioQ.inf
      percent := if 0 < mean1 then (1 - mean2 / mean1) * 100 else 0 }

/-- The record compare_execution assembles when it reaches the end. -/
structure CompareOut where
  stats1 : DescStats
  stats2 : DescStats
  ci1 : ℚ × ℚ
  ci2 : ℚ × ℚ
  verdict : Verdict
  measurements1 : List ℚ
  measurements2 : List ℚ
  gcFinal : Bool
deriving DecidableEq

/-- Method compare_execution, comparer.py lines 309-443 (measurement and
ranking content; printing, export and wall-clock bookkeeping omitted):
times snippet 1 then snippet 2 with the same setup and parameters, lets
any exception escaping a timing call propagate, ignores the returned
(mean, stdev) pairs - including the (None, None) failure marker - and
unconditionally feeds the stored measurement lists (initialized empty in
the constructor) to _detailed_stats, whose StatisticsError on an empty
list propagates uncaught; finally computes both confidence intervals and
the verdict from the two means. -/
def compare_execution (sqrtQ : ℚ → ℚ) (code_1 code_2 setup_code : Code)
    (num_repetitions num_executions_per_rep warmup_runs : Nat)
    (base : Int) (g0 : Bool) (clock1 clock2 : Nat → ℚ × ℚ) :
    Except String CompareOut :=
  let t1 := _time_single_snippet sqrtQ code_1 setup_code num_repetitions
    num_executions_per_rep warmup_runs base g0 [] clock1
  match t1.value with
  | Except.error e => Except.error e
  | Except.ok _ =>
    let t2 := _time_single_snippet sqrtQ code_2 setup_code num_repetitions
      num_executions_per_rep warmup_runs base t1.gcFinal [] clock2
    match t2.value with
    | Except.error e => Except.error e
    | Except.ok _ =>
      match _detailed_stats sqrtQ t1.measurements with
      | Except.error e => Except.error e
      | Except.ok stats1 =>
        match _detailed_stats sqrtQ t2.measurements with
        | Except.error e => Except.error e
        | Except.ok stats2 =>
          let ci1 := _confidence_interval sqrtQ t1.measurements
          let ci2 := _confidence_interval sqrtQ t2.measurements
          let v := rankVerdict stats1.mean stats2.mean
          Except.ok {
            stats1 := stats1, stats2 := stats2, ci1 := ci1, ci2 := ci2,
            verdict := v,
            measurements1 := t1.measurements, measurements2 := t2.measurements,
            gcFinal := t2.gcFinal }

/-- Seeds carried by the codes actually executed in a list of exec
events, in order: the seed values a run injects into the interpreter. -/
def injectedSeeds (evts : List ExecEvt) : List Int :=
  (evts.map (fun e => e.code.seeds)).flatten

/-- Seed appended to each constructed local_setup string (its final
random.seed line). -/
def constructedSeeds (cs : List Code) : List Int :=
  cs.map (fun c => c.seeds.getLastD 0)

/-- A snippet that resolves every name and completes normally (used to
evaluate the harness on concrete runs). -/
def noopSnippet : Code := { refs := [], seeds := [], behavior := ExecBehavior.ok }

/-- Concrete stand-in for the abstract square root in closed
evaluations whose conclusion does not depend on it. -/
def zeroSqrt : ℚ → ℚ := fun _ => 0

/-- Concrete perf_counter oracle: every repetition starts at 0 and ends
at 1. -/
def unitClock : Nat → ℚ × ℚ := fun _ => (0, 1)


/-! Helper lemmas about the execution traces. -/

/-- Every exec call recorded by the inner measured loop is the snippet
with two fresh empty namespaces. -/
theorem innerRuns_events (c : Code) :
    ∀ n : Nat, ∀ e ∈ (innerRuns c n).2, e = ⟨c, [], []⟩ := by
  intro n
  induction n with
  | zero => simp [innerRuns]
  | succ n ih =>
    intro e he
    cases h : execCode c [] with
    | error m => simp [innerRuns, h] at he; simp [he]
    | ok u =>
      simp [innerRuns, h] at he
      rcases he with he | he
      · simp [he]
      · exact ih e he

/-- Every exec call recorded by one warmup iteration carries fresh
empty namespaces. -/
theorem warmupOnce_events (code setup_code : Code) :
    ∀ e ∈ (warmupOnce code setup_code).2, e.genv = [] ∧ e.lenv = [] := by
  intro e he
  cases h : execCode setup_code [] with
  | error m => simp [warmupOnce, h] at he; simp [he]
  | ok u =>
    simp [warmupOnce, h] at he
    rcases he with he | he <;> simp [he]

/-- Every exec call recorded by the warmup loop carries fresh empty
namespaces. -/
theorem warmup_events (code setup_code : Code) :
    ∀ runs : Nat, ∀ e ∈ (warmup code setup_code runs).2, e.genv = [] ∧ e.lenv = [] := by
  intro runs
  induction runs with
  | zero => simp [warmup]
  | succ n ih =>
    intro e he
    rcases hw : warmupOnce code setup_code with ⟨res, evts⟩
    cases res with
    | error m =>
      simp [warmup, hw] at he
      exact warmupOnce_events code setup_code e (by simp [hw, he])
    | ok u =>
      simp [warmup, hw] at he
      rcases he with he | he
      · exact warmupOnce_events code setup_code e (by simp [hw, he])
      · exact ih e he

/-- The exec calls of one repetition are exactly those of its inner
loop. -/
theorem timeRep_events (code_to_time setup_code : Code) (base : Int) (number : Nat)
    (clock : Nat → ℚ × ℚ) (rep : Nat) :
    (timeRep code_to_time setup_code base number clock rep).2.2 =
      (innerRuns code_to_time number).2 := by
  simp only [timeRep]
  rcases h : (innerRuns code_to_time number).1 with e | u <;> simp [h]

/-- Every exec call recorded by the repetition loop is the snippet with
two fresh empty namespaces. -/
theorem loopFrom_events (code_to_time setup_code : Code) (base : Int) (number : Nat)
    (clock : Nat → ℚ × ℚ) :
    ∀ k i : Nat, ∀ e ∈ (loopFrom code_to_time setup_code base number clock i k).events,
      e = ⟨code_to_time, [], []⟩ := by
  intro k
  induction k with
  | zero => intro i; simp [loopFrom]
  | succ k ih =>
    intro i e he
    rcases ht : timeRep code_to_time setup_code base number clock i with ⟨r1, cons, evts⟩
    have hevts : evts = (innerRuns code_to_time number).2 := by
      have h2 := timeRep_events code_to_time setup_code base number clock i
      rw [ht] at h2
      exact h2
    cases r1 with
    | error m =>
      simp [loopFrom, ht] at he
      exact innerRuns_events code_to_time number e (hevts ▸ he)
    | ok t =>
      simp [loopFrom, ht] at he
      rcases he with he | he
      · exact innerRuns_events code_to_time number e (hevts ▸ he)
      · exact ih (i + 1) e he

/-- Shape of the timing run when the warmup raises: the exception
propagates, the gc flag is untouched, no repetition runs. -/
theorem timer_warmup_fault (sqrtQ : ℚ → ℚ) (code_to_time setup_code : Code)
    (repeatN number warmup_runs : Nat) (base : Int) (g0 : Bool)
    (prev : List ℚ) (clock : Nat → ℚ × ℚ) (e : String)
    (hw : (warmup code_to_time setup_code warmup_runs).1 = Except.error e) :
    _time_single_snippet sqrtQ code_to_time setup_code repeatN number warmup_runs
        base g0 prev clock =
      { value := Except.error e, measurements := prev, gcSeen := none, gcFinal := g0,
        constructed := [], warmupEvents := (warmup code_to_time setup_code warmup_runs).2,
        loopEvents := [] } := by
  simp only [_time_single_snippet, hw]

/-- Shape of the timing run once the warmup succeeds: the repetition
loop runs with the gc flag disabled, the finally clause restores the
entry flag on the normal and on the fault path alike, and the recorded
constructed strings and exec calls are those of the loop. -/
theorem timer_ok_fields (sqrtQ : ℚ → ℚ) (code_to_time setup_code : Code)
    (repeatN number warmup_runs : Nat) (base : Int) (g0 : Bool)
    (prev : List ℚ) (clock : Nat → ℚ × ℚ)
    (hw : (warmup code_to_time setup_code warmup_runs).1 = Except.ok ()) :
    (_time_single_snippet sqrtQ code_to_time setup_code repeatN number warmup_runs
        base g0 prev clock).warmupEvents = (warmup code_to_time setup_code warmup_runs).2 ∧
    (_time_single_snippet sqrtQ code_to_time setup_code repeatN number warmup_runs
        base g0 prev clock).gcSeen = some false ∧
    (_time_single_snippet sqrtQ code_to_time setup_code repeatN number warmup_runs
        base g0 prev clock).gcFinal = g0 ∧
    (_time_single_snippet sqrtQ code_to_time setup_code repeatN number warmup_runs
        base g0 prev clock).constructed =
      (loopFrom code_to_time setup_code base number clock 0 repeatN).constructed ∧
    (_time_single_snippet sqrtQ code_to_time setup_code repeatN number warmup_runs
        base g0 prev clock).loopEvents =
      (loopFrom code_to_time setup_code base number clock 0 repeatN).events := by
  simp only [_time_single_snippet, hw, gc_disabled_run]
  rcases hacc : (loopFrom code_to_time setup_code base number clock 0 repeatN).res with e | ts
  · cases g0 <;> simp [hacc]
  · rcases hm : meanE ts with e2 | m <;> cases g0 <;> simp [hacc, hm]


/-! Claim theorems. -/

/-- C1: evaluation of the timer at repetitions = 2, base seed 42, with a
non-faulting snippet. The per-repetition local_setup strings are indeed
constructed with seeds 42 and 43 (baseSeed + i), but the sequence of
seeds carried by the codes actually executed during the measured
repetitions is empty, not [42, 43]: line 283 builds local_setup and
never passes it to exec, so no seed is injected into any setup context
executed before the measured executions. -/
theorem C1_seed_built_but_never_injected :
    constructedSeeds (_time_single_snippet zeroSqrt noopSnippet self_setup_code 2 1 0
        fixed_seed true [] unitClock).constructed = [42, 43] ∧
    injectedSeeds (_time_single_snippet zeroSqrt noopSnippet self_setup_code 2 1 0
        fixed_seed true [] unitClock).loopEvents = [] ∧
    injectedSeeds (_time_single_snippet zeroSqrt noopSnippet self_setup_code 2 1 0
        fixed_seed true [] unitClock).loopEvents ≠ [42, 43] := by
  refine ⟨by decide, by decide, by decide⟩

/-- C2: every exec call a timing run performs, during warmup and during
the measured repetitions alike, passes fresh empty global and local
namespaces; consequently a snippet referencing any name outside the
builtin namespace (names bound only by the setup code, such as random
or time, included) raises a NameError on every execution, and both
built-in default snippets do exactly that. -/
theorem C2_fresh_empty_namespaces (sqrtQ : ℚ → ℚ) (c setup_code : Code)
    (repeatN number warmup_runs : Nat) (base : Int) (g0 : Bool)
    (prev : List ℚ) (clock : Nat → ℚ × ℚ)
    (n : String) (hn : n ∈ c.refs) (hnb : n ∉ pyBuiltins) :
    (∀ e ∈ (_time_single_snippet sqrtQ c setup_code repeatN number warmup_runs
        base g0 prev clock).warmupEvents ++
      (_time_single_snippet sqrtQ c setup_code repeatN number warmup_runs
        base g0 prev clock).loopEvents, e.genv = [] ∧ e.lenv = []) ∧
    (∃ bad, execCode c [] = Except.error (nameErrorMsg bad) ∧ bad ∈ c.refs ∧ bad ∉ pyBuiltins) ∧
    execCode DEFAULT_CODE_1 [] = Except.error (nameErrorMsg "random") ∧
    execCode DEFAULT_CODE_2 [] = Except.error (nameErrorMsg "random") := by
  refine ⟨?_, ?_, by decide, by decide⟩
  · intro e he
    rcases List.mem_append.mp he with he | he
    · rcases hw : (warmup c setup_code warmup_runs).1 with err | u
      · rw [(timer_warmup_fault sqrtQ c setup_code repeatN number warmup_runs
          base g0 prev clock err hw)] at he
        exact warmup_events c setup_code warmup_runs e he
      · rw [(timer_ok_fields sqrtQ c setup_code repeatN number warmup_runs
          base g0 prev clock hw).1] at he
        exact warmup_events c setup_code warmup_runs e he
    · rcases hw : (warmup c setup_code warmup_runs).1 with err | u
      · rw [(timer_warmup_fault sqrtQ c setup_code repeatN number warmup_runs
          base g0 prev clock err hw)] at he
        cases he
      · rw [(timer_ok_fields sqrtQ c setup_code repeatN number warmup_runs
          base g0 prev clock hw).2.2.2.2] at he
        have := loopFrom_events c setup_code base number clock repeatN 0 e he
        simp [this]
  · have hp : (fun x => !([].contains x || pyBuiltins.contains x)) n = true := by
      simp [hnb]
    have hsome : (c.refs.find? (fun x => !([].contains x || pyBuiltins.contains x))).isSome := by
      rw [List.find?_isSome]
      exact ⟨n, hn, hp⟩
    rcases hfind : c.refs.find? (fun x => !([].contains x || pyBuiltins.contains x)) with _ | bad
    · rw [hfind] at hsome; cases hsome
    · refine ⟨bad, ?_, List.mem_of_find?_eq_some hfind, ?_⟩
      · unfold execCode firstUnresolved
        rw [hfind]
      · have hq := List.find?_some hfind
        simp at hq
        exact hq

/-- C3: with the built-in default snippets (each of which raises a
NameError on every execution), compare_execution does not return a
Failure value. With warm-up runs it lets the NameError escape uncaught
(the warmup call sits before the try statement); with zero warm-up runs
the fault in the measured loop is caught and turned into (None, None),
but compare_execution ignores that marker and crashes on
_detailed_stats of the empty measurement list with a StatisticsError. -/
theorem C3_compare_crashes_instead_of_failure :
    compare_execution zeroSqrt DEFAULT_CODE_1 DEFAULT_CODE_2 self_setup_code 5 3 5
        fixed_seed true unitClock unitClock = Except.error (nameErrorMsg "random") ∧
    compare_execution zeroSqrt DEFAULT_CODE_1 DEFAULT_CODE_2 self_setup_code 5 3 0
        fixed_seed true unitClock unitClock = Except.error meanErrMsg := by
  refine ⟨by decide, by decide⟩

/-- C7: for every timing run - snippet, parameters and fault behavior
arbitrary - the repetition loop only ever observes the gc flag disabled
(false), and the flag after the run equals the flag before it, on the
success path, on the caught snippet-fault path and on the uncaught
warmup-fault path alike. -/
theorem C7_gc_disabled_and_restored (sqrtQ : ℚ → ℚ) (code_to_time setup_code : Code)
    (repeatN number warmup_runs : Nat) (base : Int) (g0 : Bool)
    (prev : List ℚ) (clock : Nat → ℚ × ℚ) :
    (∀ g, (_time_single_snippet sqrtQ code_to_time setup_code repeatN number warmup_runs
        base g0 prev clock).gcSeen = some g → g = false) ∧
    (_time_single_snippet sqrtQ code_to_time setup_code repeatN number warmup_runs
        base g0 prev clock).gcFinal = g0 := by
  rcases hw : (warmup code_to_time setup_code warmup_runs).1 with err | u
  · rw [timer_warmup_fault sqrtQ code_to_time setup_code repeatN number warmup_runs
      base g0 prev clock err hw]
    refine ⟨?_, rfl⟩
    intro g h
    exact Option.noConfusion h
  · have h := timer_ok_fields sqrtQ code_to_time setup_code repeatN number warmup_runs
      base g0 prev clock hw
    refine ⟨?_, h.2.2.1⟩
    intro g hg
    rw [h.2.1] at hg
    cases hg
    rfl

/-- C7 witness: a concrete faulting run (the default snippet raises in
the measured loop) still ends with the gc flag restored to enabled. -/
theorem C7_witness :
    (_time_single_snippet zeroSqrt DEFAULT_CODE_1 self_setup_code 5 3 0
        fixed_seed true [] unitClock).gcFinal = true :=
  (C7_gc_disabled_and_restored zeroSqrt DEFAULT_CODE_1 self_setup_code 5 3 0
    fixed_seed true [] unitClock).2


/-- C2 witness: the first default snippet at concrete run parameters -
random is one of its references, is not a builtin, and its execution
with fresh empty namespaces raises the NameError naming random. -/
theorem C2_witness :
    ("random" ∈ DEFAULT_CODE_1.refs ∧ "random" ∉ pyBuiltins) ∧
    execCode DEFAULT_CODE_1 [] = Except.error (nameErrorMsg "random") :=
  ⟨⟨by decide, by decide⟩,
    (C2_fresh_empty_namespaces zeroSqrt DEFAULT_CODE_1 self_setup_code 5 3 5
      fixed_seed true [] unitClock "random" (by decide) (by decide)).2.2.1⟩

/-- The inner measured loop succeeds when the snippet does. -/
theorem innerRuns_res_ok (c : Code) (hok : execCode c [] = Except.ok ()) :
    ∀ n : Nat, (innerRuns c n).1 = Except.ok () := by
  intro n
  induction n with
  | zero => rfl
  | succ n ih => simp [innerRuns, hok, ih]

/-- Elapsed value of one repetition with a non-faulting snippet:
(end - start) / number when number is positive, 0 otherwise. -/
theorem timeRep_res (code_to_time setup_code : Code) (base : Int) (number : Nat)
    (clock : Nat → ℚ × ℚ) (rep : Nat)
    (hok : execCode code_to_time [] = Except.ok ()) :
    (timeRep code_to_time setup_code base number clock rep).1 =
      Except.ok (if 0 < number then ((clock rep).2 - (clock rep).1) / (number : ℚ) else 0) := by
  simp only [timeRep]
  rw [innerRuns_res_ok code_to_time hok number]

/-- Times recorded by the repetition loop with a non-faulting snippet,
from an arbitrary start index. -/
theorem loopFrom_res (code_to_time setup_code : Code) (base : Int) (number : Nat)
    (clock : Nat → ℚ × ℚ) (hok : execCode code_to_time [] = Except.ok ()) :
    ∀ k i : Nat, (loopFrom code_to_time setup_code base number clock i k).res =
      Except.ok ((List.range k).map (fun r =>
        if 0 < number then ((clock (i + r)).2 - (clock (i + r)).1) / (number : ℚ) else 0)) := by
  intro k
  induction k with
  | zero => intro i; rfl
  | succ k ih =>
    intro i
    rcases ht : timeRep code_to_time setup_code base number clock i with ⟨r1, cons, evts⟩
    have hr : r1 = Except.ok (if 0 < number then ((clock i).2 - (clock i).1) / (number : ℚ) else 0) := by
      have h2 := timeRep_res code_to_time setup_code base number clock i hok
      rw [ht] at h2
      exact h2
    subst hr
    simp only [loopFrom, ht, ih (i + 1), Except.map]
    rw [List.range_succ_eq_map]
    simp only [List.map_cons, List.map_map, Nat.add_zero, Function.comp]
    congr 1
    congr 1
    apply List.map_congr_left
    intro r _
    simp only [Function.comp_apply]
    have harith : i + 1 + r = i + (r + 1) := by omega
    rw [harith]

/-- C10: with a non-faulting snippet the repetition loop records, for
every repetition r in [0, repetitions), exactly the elapsed value
(end - start) / executionsPerRep when executionsPerRep > 0 and exactly
0 when executionsPerRep = 0 - the division is guarded, never taken with
a zero divisor. -/
theorem C10_elapsed_guarded (code_to_time setup_code : Code) (base : Int)
    (number repeatN : Nat) (clock : Nat → ℚ × ℚ)
    (hok : execCode code_to_time [] = Except.ok ()) :
    (loopFrom code_to_time setup_code base number clock 0 repeatN).res =
      Except.ok ((List.range repeatN).map (fun r =>
        if 0 < number then ((clock r).2 - (clock r).1) / (number : ℚ) else 0)) ∧
    (number = 0 →
      (loopFrom code_to_time setup_code base number clock 0 repeatN).res =
        Except.ok (List.replicate repeatN 0)) := by
  have h := loopFrom_res code_to_time setup_code base number clock hok repeatN 0
  simp only [Nat.zero_add] at h
  refine ⟨h, ?_⟩
  intro h0
  subst h0
  rw [h]
  simp

/-- C10 witness: three repetitions of the no-op snippet at two
executions per repetition under the unit clock record the guarded
elapsed values. -/
theorem C10_witness :
    execCode noopSnippet [] = Except.ok () ∧
    (loopFrom noopSnippet self_setup_code fixed_seed 2 unitClock 0 3).res =
      Except.ok ((List.range 3).map (fun r =>
        if 0 < 2 then ((unitClock r).2 - (unitClock r).1) / (2 : ℚ) else 0)) :=
  ⟨by decide, (C10_elapsed_guarded noopSnippet self_setup_code fixed_seed 2 3 unitClock (by decide)).1⟩


/-- Entry k of the 100-quantile list is the interpolated cut point for
i = k + 1. -/
theorem nth_quantiles100 (data : List ℚ) (k : Nat) (hk : k < 99) :
    nth (quantiles100 data) k = quantileAt (pySorted data) data.length (k + 1) := by
  unfold nth quantiles100
  rw [List.getD_eq_getElem _ _ (by simp [hk])]
  simp

/-- Evaluated form of _detailed_stats on a nonempty series. -/
theorem detailed_stats_eval (sqrtQ : ℚ → ℚ) (data : List ℚ) (hne : data ≠ []) :
    _detailed_stats sqrtQ data = Except.ok
      { mean := pyMean data,
        stdev := if 1 < data.length then pyStdev sqrtQ data else 0,
        median := pyMedian data,
        percentile_5 :=
          if 20 ≤ data.length then truthyOpt (quantileAt (pySorted data) data.length 5) else none,
        percentile_95 :=
          if 20 ≤ data.length then truthyOpt (quantileAt (pySorted data) data.length 95) else none,
        min := pyMin data, max := pyMax data, count := data.length } := by
  have hneB : data.isEmpty = false := by
    cases data with
    | nil => exact absurd rfl hne
    | cons x xs => rfl
  by_cases h20 : 20 ≤ data.length
  · simp only [_detailed_stats, meanE, hneB, if_pos h20, Bool.false_eq_true, if_false,
      nth_quantiles100 data 4 (by omega), nth_quantiles100 data 94 (by omega)]
  · simp only [_detailed_stats, meanE, hneB, if_neg h20, Bool.false_eq_true, if_false]

/-- C4 counterexample: on the empty series (the one repetitions = 0
produces) the statistics stage faults - statistics.mean raises a
StatisticsError - instead of returning fallback values. -/
theorem C4_cex_empty_series_faults :
    _detailed_stats zeroSqrt [] = Except.error meanErrMsg := by decide

/-- C4 as amended: the confidence interval is the explicit fallback
(0, 0) for every series with fewer than 2 samples, the empty one
included, and the descriptive statistics return stdev = 0 without
faulting for every such series that is nonempty (count = 1); the empty
series itself makes the descriptive-statistics computation fault. -/
theorem C4_small_series_fallbacks (sqrtQ : ℚ → ℚ) (data : List ℚ)
    (h : data.length < 2) :
    _confidence_interval sqrtQ data = (0, 0) ∧
    (data ≠ [] → ∃ st, _detailed_stats sqrtQ data = Except.ok st ∧
      st.stdev = 0 ∧ st.count < 2) := by
  constructor
  · simp [_confidence_interval, h]
  · intro hne
    refine ⟨_, detailed_stats_eval sqrtQ data hne, ?_, h⟩
    have h1 : ¬ 1 < data.length := by omega
    simp [h1]

/-- C4 witness: the one-sample series [5] hits both fallbacks. -/
theorem C4_witness :
    _confidence_interval zeroSqrt [5] = (0, 0) ∧
    Except.map (fun st => st.stdev) (_detailed_stats zeroSqrt [5]) = Except.ok 0 := by
  have h := C4_small_series_fallbacks zeroSqrt [5] (by decide)
  obtain ⟨st, hok, hsd, _⟩ := h.2 (by decide)
  rw [hok]
  exact ⟨h.1, by simp [Except.map, hsd]⟩

/-- C5 counterexample: at the exact tie meanA = meanB = 0 the verdict
labels Snippet 2 faster but reports the ratio as infinity, not 1.0. -/
theorem C5_cex_tie_at_zero :
    (rankVerdict 0 0).faster = 2 ∧ (rankVerdict 0 0).ratioQ = RatioQ.inf ∧
    RatioQ.inf ≠ RatioQ.fin 1 := by
  refine ⟨by decide, by decide, by decide⟩

/-- C5 as amended: for non-negative means the snippet with the strictly
smaller mean is labeled faster; the ratio is slowerMean / fasterMean
(at least 1) when the faster mean is positive and infinity when it is
zero; the percentage is (1 - fasterMean / slowerMean) * 100 whenever
the slower mean is positive; an exact tie labels Snippet 2 faster, with
ratio 1.0 and percentage 0.0 when the tied mean is positive (a tie at
zero falls under the infinity rule instead); and the concrete instance
meanA = 10, meanB = 20 yields Snippet 1, ratio 2.0, percentFaster 50. -/
theorem C5_ranking (m1 m2 : ℚ) (h1 : 0 ≤ m1) (h2 : 0 ≤ m2) :
    (m1 < m2 →
      (rankVerdict m1 m2).faster = 1 ∧ (rankVerdict m1 m2).slower = 2 ∧
      (0 < m1 → (rankVerdict m1 m2).ratioQ = RatioQ.fin (m2 / m1) ∧ 1 ≤ m2 / m1) ∧
      (m1 = 0 → (rankVerdict m1 m2).ratioQ = RatioQ.inf) ∧
      (rankVerdict m1 m2).percent = (1 - m1 / m2) * 100) ∧
    (m2 ≤ m1 →
      (rankVerdict m1 m2).faster = 2 ∧ (rankVerdict m1 m2).slower = 1 ∧
      (0 < m2 → (rankVerdict m1 m2).ratioQ = RatioQ.fin (m1 / m2) ∧ 1 ≤ m1 / m2) ∧
      (m2 = 0 → (rankVerdict m1 m2).ratioQ = RatioQ.inf) ∧
      (0 < m1 → (rankVerdict m1 m2).percent = (1 - m2 / m1) * 100)) ∧
    (m1 = m2 → 0 < m1 →
      (rankVerdict m1 m2).faster = 2 ∧ (rankVerdict m1 m2).ratioQ = RatioQ.fin 1 ∧
      (rankVerdict m1 m2).percent = 0) ∧
    rankVerdict 10 20 = { faster := 1, slower := 2, ratioQ := RatioQ.fin 2, percent := 50 } := by
  refine ⟨?_, ?_, ?_, by norm_num [rankVerdict]⟩
  · intro hlt
    have hm2 : 0 < m2 := lt_of_le_of_lt h1 hlt
    simp only [rankVerdict, if_pos hlt]
    refine ⟨by trivial, by trivial, ?_, ?_, ?_⟩
    · intro hm1
      rw [if_pos hm1]
      exact ⟨rfl, (one_le_div hm1).mpr (le_of_lt hlt)⟩
    · intro hz
      rw [if_neg (by rw [hz]; exact lt_irrefl 0)]
    · rw [if_pos hm2]
  · intro hle
    have hnlt : ¬ m1 < m2 := not_lt.mpr hle
    simp only [rankVerdict, if_neg hnlt]
    refine ⟨by trivial, by trivial, ?_, ?_, ?_⟩
    · intro hm2
      rw [if_pos hm2]
      exact ⟨rfl, (one_le_div hm2).mpr hle⟩
    · intro hz
      rw [if_neg (by rw [hz]; exact lt_irrefl 0)]
    · intro hm1
      rw [if_pos hm1]
  · intro heq hm1
    subst heq
    simp only [rankVerdict, if_neg (lt_irrefl m1), if_pos hm1]
    refine ⟨by trivial, ?_, ?_⟩
    · rw [div_self (ne_of_gt hm1)]
    · rw [div_self (ne_of_gt hm1)]
      ring

/-- C5 witness: the concrete instance at means 10 and 20. -/
theorem C5_witness :
    rankVerdict 10 20 = { faster := 1, slower := 2, ratioQ := RatioQ.fin 2, percent := 50 } :=
  (C5_ranking 10 20 (by norm_num) (by norm_num)).2.2.2

/-- The inline t lookup of the source equals the critical-value
function as the spec words it. -/
theorem t_table_eq_t_spec : ∀ n : Nat, t_table n = t_spec n := by
  intro n
  by_cases h : n ≤ 31
  · interval_cases n <;> rfl
  · have h30 : 30 < n := by omega
    simp only [t_table, t_spec]
    rw [if_pos h30, if_neg (by omega : ¬(2 ≤ n ∧ n ≤ 10)), if_neg (by omega : ¬ n ≤ 30)]

/-- C6: for every series of at least 2 samples the confidence interval
is mean plus/minus t(n) * stdev / sqrt(n) with t(n) the spec table:
12.71, 4.30, 3.18, 2.78, 2.57, 2.45, 2.36, 2.31, 2.26 for n = 2..10,
2.0 for every other n up to 30, and 1.96 beyond 30. -/
theorem C6_confidence_interval (sqrtQ : ℚ → ℚ) (data : List ℚ)
    (h2 : 2 ≤ data.length) :
    _confidence_interval sqrtQ data =
      (pyMean data - t_spec data.length * pyStdev sqrtQ data / sqrtQ ((data.length : ℚ)),
       pyMean data + t_spec data.length * pyStdev sqrtQ data / sqrtQ ((data.length : ℚ))) ∧
    (t_spec 2 = 12.71 ∧ t_spec 3 = 4.30 ∧ t_spec 4 = 3.18 ∧ t_spec 5 = 2.78 ∧
     t_spec 6 = 2.57 ∧ t_spec 7 = 2.45 ∧ t_spec 8 = 2.36 ∧ t_spec 9 = 2.31 ∧
     t_spec 10 = 2.26) ∧
    (∀ n : Nat, 10 < n → n ≤ 30 → t_spec n = 2.0) ∧
    (∀ n : Nat, 30 < n → t_spec n = 1.96) := by
  refine ⟨?_, ⟨rfl, rfl, rfl, rfl, rfl, rfl, rfl, rfl, rfl⟩, ?_, ?_⟩
  · simp only [_confidence_interval, t_table_eq_t_spec]
    rw [if_neg (by omega : ¬ data.length < 2)]
  · intro n h10 h30
    simp only [t_spec]
    rw [if_neg (by omega : ¬(2 ≤ n ∧ n ≤ 10)), if_pos h30]
  · intro n h30
    simp only [t_spec]
    rw [if_neg (by omega : ¬(2 ≤ n ∧ n ≤ 10)), if_neg (by omega : ¬ n ≤ 30)]

/-- C6 witness: the two-sample series [1, 2]. -/
theorem C6_witness :
    2 ≤ ([1, 2] : List ℚ).length ∧
    _confidence_interval zeroSqrt [1, 2] =
      (pyMean [1, 2] - t_spec ([1, 2] : List ℚ).length * pyStdev zeroSqrt [1, 2] /
          zeroSqrt ((([1, 2] : List ℚ).length : ℚ)),
       pyMean [1, 2] + t_spec ([1, 2] : List ℚ).length * pyStdev zeroSqrt [1, 2] /
          zeroSqrt ((([1, 2] : List ℚ).length : ℚ))) :=
  ⟨by decide, (C6_confidence_interval zeroSqrt [1, 2] (by decide)).1⟩

/-- C9: whenever the series has at least 20 samples the descriptive
statistics are produced, yet a percentile field is reported absent
(None) as soon as the computed cut point is the falsy value 0.0 - the
truthiness test, not the count threshold alone, decides availability. -/
theorem C9_percentile_truthiness (sqrtQ : ℚ → ℚ) (data : List ℚ)
    (h20 : 20 ≤ data.length) :
    ∃ st, _detailed_stats sqrtQ data = Except.ok st ∧ st.count = data.length ∧
      (quantileAt (pySorted data) data.length 5 = 0 → st.percentile_5 = none) ∧
      (quantileAt (pySorted data) data.length 95 = 0 → st.percentile_95 = none) := by
  have hne : data ≠ [] := by
    cases data with
    | nil => simp at h20
    | cons x xs => simp
  refine ⟨_, detailed_stats_eval sqrtQ data hne, rfl, ?_, ?_⟩
  · intro hz
    simp [if_pos h20, truthyOpt, hz]
  · intro hz
    simp [if_pos h20, truthyOpt, hz]

/-- C9 witness: twenty zero samples - count is 20, yet percentile_5 is
reported absent because its computed value is 0. -/
theorem C9_witness :
    Except.map (fun st => st.percentile_5) (_detailed_stats zeroSqrt (List.replicate 20 0)) =
      Except.ok none := by
  obtain ⟨st, hok, _, hz5, _⟩ :=
    C9_percentile_truthiness zeroSqrt (List.replicate 20 0) (by decide)
  rw [hok]
  have h0 : quantileAt (pySorted (List.replicate 20 (0:ℚ))) (List.replicate 20 (0:ℚ)).length 5 = 0 := by
    norm_num [pySorted, quantileAt, clampJ, nth, List.replicate, List.insertionSort,
      List.orderedInsert]
  simp [Except.map, hz5 h0]


/-- Folding min never increases the accumulator. -/
theorem foldl_min_le_init (xs : List ℚ) : ∀ a : ℚ, xs.foldl min a ≤ a := by
  induction xs with
  | nil => intro a; exact le_refl a
  | cons y ys ih => intro a; exact le_trans (ih (min a y)) (min_le_left a y)

/-- Folding min bounds every element of the list. -/
theorem foldl_min_le (xs : List ℚ) : ∀ a x : ℚ, x ∈ xs → xs.foldl min a ≤ x := by
  induction xs with
  | nil => intro a x hx; cases hx
  | cons y ys ih =>
    intro a x hx
    rcases List.mem_cons.mp hx with rfl | hx
    · exact le_trans (foldl_min_le_init ys (min a x)) (min_le_right a x)
    · exact ih (min a y) x hx

/-- Python min bounds every element from below. -/
theorem pyMin_le (data : List ℚ) (x : ℚ) (hx : x ∈ data) : pyMin data ≤ x := by
  cases data with
  | nil => cases hx
  | cons y ys =>
    rcases List.mem_cons.mp hx with rfl | hx
    · exact foldl_min_le_init ys x
    · exact foldl_min_le ys y x hx

/-- Folding max never decreases the accumulator. -/
theorem le_foldl_max_init (xs : List ℚ) : ∀ a : ℚ, a ≤ xs.foldl max a := by
  induction xs with
  | nil => intro a; exact le_refl a
  | cons y ys ih => intro a; exact le_trans (le_max_left a y) (ih (max a y))

/-- Folding max bounds every element of the list. -/
theorem le_foldl_max (xs : List ℚ) : ∀ a x : ℚ, x ∈ xs → x ≤ xs.foldl max a := by
  induction xs with
  | nil => intro a x hx; cases hx
  | cons y ys ih =>
    intro a x hx
    rcases List.mem_cons.mp hx with rfl | hx
    · exact le_trans (le_max_right a x) (le_foldl_max_init ys (max a x))
    · exact ih (max a y) x hx

/-- Python max bounds every element from above. -/
theorem le_pyMax (data : List ℚ) (x : ℚ) (hx : x ∈ data) : x ≤ pyMax data := by
  cases data with
  | nil => cases hx
  | cons y ys =>
    rcases List.mem_cons.mp hx with rfl | hx
    · exact le_foldl_max_init ys x
    · exact le_foldl_max ys y x hx

/-- Sorting preserves length. -/
theorem length_pySorted (data : List ℚ) : (pySorted data).length = data.length :=
  List.length_insertionSort _ data

/-- The sorted copy is sorted. -/
theorem sorted_pySorted (data : List ℚ) : (pySorted data).Sorted (· ≤ ·) :=
  List.sorted_insertionSort _ data

/-- Membership transfers from the sorted copy to the data. -/
theorem mem_pySorted (data : List ℚ) (x : ℚ) : x ∈ pySorted data ↔ x ∈ data :=
  (List.perm_insertionSort _ data).mem_iff

/-- In-bounds entries of a list belong to it. -/
theorem nth_mem (s : List ℚ) (k : Nat) (hk : k < s.length) : nth s k ∈ s := by
  rw [nth, List.getD_eq_getElem s 0 hk]
  exact List.getElem_mem hk

/-- Entries of a sorted list are monotone in the index. -/
theorem nth_mono (s : List ℚ) (hs : s.Sorted (· ≤ ·)) (i j : Nat)
    (hij : i ≤ j) (hj : j < s.length) : nth s i ≤ nth s j := by
  rcases eq_or_lt_of_le hij with rfl | hlt
  · exact le_refl _
  · have hi : i < s.length := lt_trans hlt hj
    rw [nth, nth, List.getD_eq_getElem s 0 hi, List.getD_eq_getElem s 0 hj]
    have h := hs.rel_get_of_lt (a := ⟨i, hi⟩) (b := ⟨j, hj⟩) hlt
    simpa [List.get_eq_getElem] using h

/-- The clamped interpolation index lies in 1 .. ld - 1. -/
theorem clampJ_bounds (ld j0 : Nat) (hld : 2 ≤ ld) :
    1 ≤ clampJ ld j0 ∧ clampJ ld j0 ≤ ld - 1 := by
  unfold clampJ
  split_ifs <;> omega

/-- Linear interpolation with a weight below 100 stays between its
endpoints. -/
theorem interp_between (a b : ℚ) (d : Nat) (hab : a ≤ b) (hd : d < 100) :
    a ≤ (a * (100 - (d : ℚ)) + b * (d : ℚ)) / 100 ∧
    (a * (100 - (d : ℚ)) + b * (d : ℚ)) / 100 ≤ b := by
  have hd0 : (0 : ℚ) ≤ (d : ℚ) := Nat.cast_nonneg d
  have hd100 : (d : ℚ) ≤ 100 := by exact_mod_cast le_of_lt hd
  constructor <;> nlinarith

/-- Every quantile cut point lies between the two adjacent order
statistics it interpolates. -/
theorem quantileAt_between (s : List ℚ) (ld i : Nat) (hs : s.Sorted (· ≤ ·))
    (hlen : s.length = ld) (hld : 2 ≤ ld) :
    nth s (clampJ ld (i * (ld + 1) / 100) - 1) ≤ quantileAt s ld i ∧
    quantileAt s ld i ≤ nth s (clampJ ld (i * (ld + 1) / 100)) := by
  have hj := clampJ_bounds ld (i * (ld + 1) / 100) hld
  have hjlen : clampJ ld (i * (ld + 1) / 100) < s.length := by omega
  have hab : nth s (clampJ ld (i * (ld + 1) / 100) - 1) ≤ nth s (clampJ ld (i * (ld + 1) / 100)) :=
    nth_mono s hs _ _ (by omega) hjlen
  have h := interp_between (nth s (clampJ ld (i * (ld + 1) / 100) - 1))
    (nth s (clampJ ld (i * (ld + 1) / 100))) (i * (ld + 1) % 100) hab
    (Nat.mod_lt _ (by norm_num))
  simpa [quantileAt] using h

/-- The median lies between the order statistics at its lower and upper
middle indices. -/
theorem pyMedian_between (data : List ℚ) (h1 : 1 ≤ data.length) :
    nth (pySorted data)
      (if data.length % 2 = 1 then data.length / 2 else data.length / 2 - 1) ≤ pyMedian data ∧
    pyMedian data ≤ nth (pySorted data) (data.length / 2) := by
  by_cases hpar : data.length % 2 = 1
  · simp only [pyMedian, if_pos hpar]
    exact ⟨le_refl _, le_refl _⟩
  · have hn2 : 2 ≤ data.length := by omega
    have hab : nth (pySorted data) (data.length / 2 - 1) ≤ nth (pySorted data) (data.length / 2) :=
      nth_mono (pySorted data) (sorted_pySorted data) _ _ (by omega)
        (by rw [length_pySorted]; omega)
    simp only [pyMedian, if_neg hpar]
    constructor <;> linarith

/-- C8: whenever the series has at least 20 samples and both percentile
fields are reported present, the descriptive statistics are ordered:
min is at most the 5th percentile, which is at most the median, which
is at most the 95th percentile, which is at most the max. -/
theorem C8_percentile_ordering (sqrtQ : ℚ → ℚ) (data : List ℚ) (h20 : 20 ≤ data.length)
    (st : DescStats) (hok : _detailed_stats sqrtQ data = Except.ok st)
    (v5 v95 : ℚ) (h5 : st.percentile_5 = some v5) (h95 : st.percentile_95 = some v95) :
    st.min ≤ v5 ∧ v5 ≤ st.median ∧ st.median ≤ v95 ∧ v95 ≤ st.max := by
  have hne : data ≠ [] := by
    cases data with
    | nil => simp at h20
    | cons x xs => simp
  rw [detailed_stats_eval sqrtQ data hne] at hok
  have hst := Except.ok.inj hok
  subst hst
  simp only [if_pos h20] at h5 h95
  have hv5 : v5 = quantileAt (pySorted data) data.length 5 := by
    by_cases hz : quantileAt (pySorted data) data.length 5 = 0
    · simp [truthyOpt, hz] at h5
    · simp [truthyOpt, hz] at h5
      exact h5.symm
  have hv95 : v95 = quantileAt (pySorted data) data.length 95 := by
    by_cases hz : quantileAt (pySorted data) data.length 95 = 0
    · simp [truthyOpt, hz] at h95
    · simp [truthyOpt, hz] at h95
      exact h95.symm
  have hlen : (pySorted data).length = data.length := length_pySorted data
  have hsort : (pySorted data).Sorted (· ≤ ·) := sorted_pySorted data
  have hld2 : 2 ≤ data.length := by omega
  have hq5 := quantileAt_between (pySorted data) data.length 5 hsort hlen hld2
  have hq95 := quantileAt_between (pySorted data) data.length 95 hsort hlen hld2
  have hmed := pyMedian_between data (by omega)
  have hcb5 := clampJ_bounds data.length (5 * (data.length + 1) / 100) hld2
  have hcb95 := clampJ_bounds data.length (95 * (data.length + 1) / 100) hld2
  have hidx5 : clampJ data.length (5 * (data.length + 1) / 100) ≤
      (if data.length % 2 = 1 then data.length / 2 else data.length / 2 - 1) := by
    unfold clampJ
    split_ifs <;> omega
  have hidx95 : data.length / 2 ≤ clampJ data.length (95 * (data.length + 1) / 100) - 1 := by
    unfold clampJ
    split_ifs <;> omega
  refine ⟨?_, ?_, ?_, ?_⟩
  · rw [hv5]
    refine le_trans (pyMin_le data _ ?_) hq5.1
    exact (mem_pySorted data _).mp (nth_mem (pySorted data) _ (by omega))
  · rw [hv5]
    refine le_trans hq5.2 (le_trans (nth_mono (pySorted data) hsort _ _ hidx5 ?_) hmed.1)
    rw [hlen]
    split_ifs <;> omega
  · rw [hv95]
    exact le_trans hmed.2
      (le_trans (nth_mono (pySorted data) hsort _ _ hidx95 (by omega)) hq95.1)
  · rw [hv95]
    refine le_trans hq95.2 (le_pyMax data _ ?_)
    exact (mem_pySorted data _).mp (nth_mem (pySorted data) _ (by omega))

/-- C8 witness: twenty samples all equal to 1 - both percentiles are
present (value 1) and the ordering chain holds. -/
theorem C8_witness :
    (1 : ℚ) ≤ 1 ∧ (1 : ℚ) ≤ 1 ∧ (1 : ℚ) ≤ 1 ∧ (1 : ℚ) ≤ 1 := by
  have hok : _detailed_stats zeroSqrt (List.replicate 20 (1 : ℚ)) = Except.ok
      { mean := 1, stdev := 0, median := 1, percentile_5 := some 1, percentile_95 := some 1,
        min := 1, max := 1, count := 20 } := by
    norm_num [_detailed_stats, meanE, pyMean, pyMedian, pySorted, quantiles100, quantileAt,
      clampJ, truthyOpt, nth, pyMin, pyMax, pyStdev, pyVariance, List.replicate,
      List.insertionSort, List.orderedInsert, zeroSqrt]
  exact C8_percentile_ordering zeroSqrt (List.replicate 20 1) (by decide) _ hok 1 1 rfl rfl

end CodeCompare
